import Mathlib

/-!
Shallow embedding of `static/script.js`: the Upload-and-Render controller.
The script wires a form submit handler that posts the selected image to
`/analyze` as multipart form data and renders the JSON response into an
ingredients section (pill badges) and a recipes section (recipe cards),
plus the pure templating function `renderRecipe`.
-/

namespace UploadRender

/-- One recipe record of the analyze response, as consumed by
`renderRecipe`: `title`, `short_description`, `ingredients_used`, `steps`. -/
structure Recipe where
  title : String
  short_description : String
  ingredients_used : List String
  steps : List String
deriving DecidableEq

/-- The parsed JSON body as seen after `const \x7b ingredients, recipes \x7d = data`:
destructuring a missing key yields `undefined`, modelled as `none`. -/
structure RawResponse where
  ingredientsField : Option (List String)
  recipesField : Option (List Recipe)
deriving DecidableEq

/-- The DOM cells the script mutates: `statusDiv.textContent`, the
`hidden` class on the two section elements, and the `innerHTML` of the two
list containers. -/
structure DomState where
  statusText : String
  ingredientsHidden : Bool
  recipesHidden : Bool
  ingredientsListHTML : String
  recipesListHTML : String
deriving DecidableEq

/-- The `FormData` body: ordered (field name, file handle) parts. Files are
opaque handles, modelled by their identity as a string. -/
structure FormDataM where
  parts : List (String × String)
deriving DecidableEq

/-- One network request as issued by `fetch(url, \x7b method, body \x7d)`. -/
structure Request where
  url : String
  method : String
  body : FormDataM
deriving DecidableEq

/-- Outcome of `await fetch(...)` followed by `await res.json()`:
a parsed value, a rejected network promise, or a JSON-parse rejection. -/
inductive FetchOutcome where
  | ok (data : RawResponse)
  | networkReject
  | parseReject
deriving DecidableEq

/-- JavaScript `Array.prototype.join("")`: concatenation with no separator. -/
def joinAll : List String → String
  | [] => ""
  | x :: xs => x ++ joinAll xs

/-- The ingredient badge template: `<span class="pill">${i}</span>`. -/
def pill (i : String) : String := "<span class=\"pill\">" ++ i ++ "</span>"

/-- `renderRecipe(recipe)`: the template literal producing one recipe card,
character for character. -/
def renderRecipe (recipe : Recipe) : String :=
  "\n    <div class=\"recipe-card\">\n      <h3>" ++ recipe.title
    ++ "</h3>\n      <p>" ++ recipe.short_description
    ++ "</p>\n      <h4>Ingredients used</h4>\n      <ul>\n        "
    ++ joinAll (recipe.ingredients_used.map (fun i => "<li>" ++ i ++ "</li>"))
    ++ "\n      </ul>\n      <h4>Steps</h4>\n      <ol>\n        "
    ++ joinAll (recipe.steps.map (fun s => "<li>" ++ s ++ "</li>"))
    ++ "\n      </ol>\n    </div>\n  "

/-- The `// Render ingredients` branch: `if (ingredients.length)` reveal the
section and replace the list container's `innerHTML` with the joined pills;
the empty case (length `0` is falsy) performs no write. -/
def renderIngredients (ingredients : List String) (s : DomState) : DomState :=
  if ingredients.length ≠ 0 then
    { s with ingredientsHidden := false,
             ingredientsListHTML := joinAll (ingredients.map pill) }
  else s

/-- The `// Render recipes` branch: `if (recipes.length)` reveal the section
and replace the list container's `innerHTML` with the joined recipe cards. -/
def renderRecipes (recipes : List Recipe) (s : DomState) : DomState :=
  if recipes.length ≠ 0 then
    { s with recipesHidden := false,
             recipesListHTML := joinAll (recipes.map renderRecipe) }
  else s

/-- The response-processing tail of the handler, on the raw (possibly
malformed) parsed value. Accessing `.length` of an `undefined` field throws a
`TypeError`; `.error s` records the DOM state at the throw point, which the
handler does not catch. On success the status line is cleared last. -/
def renderRaw (data : RawResponse) (s : DomState) : Except DomState DomState :=
  match data.ingredientsField with
  | none => .error s
  | some ingredients =>
    let s1 := renderIngredients ingredients s
    match data.recipesField with
    | none => .error s1
    | some recipes =>
      let s2 := renderRecipes recipes s1
      .ok { s2 with statusText := "" }

/-- The handler's synchronous prefix once a file is selected: build the
`FormData` with the single `image` part, set the status line to
`"Analyzing…"`, add `hidden` to both sections (idempotent), and produce the
request that `fetch("/analyze", ...)` will issue. -/
def prePhase (f : String) (s : DomState) : DomState × Request :=
  ({ s with statusText := "Analyzing…",
            ingredientsHidden := true,
            recipesHidden := true },
   { url := "/analyze", method := "POST", body := { parts := [("image", f)] } })

/-- The observable outcome of one run of the submit handler. -/
structure CycleResult where
  dom : DomState
  requests : List Request
  threw : Bool
deriving DecidableEq

/-- One full submission cycle of the submit handler: `file?` is
`imageInput.files[0]` (`none` when no file is selected), `outcome` is what
the awaited fetch/parse resolves to, `s` is the DOM state at submit time.
`threw = true` marks an uncaught rejection escaping the async handler. -/
def submitCycle (fileSel : Option String) (outcome : FetchOutcome)
    (s : DomState) : CycleResult :=
  match fileSel with
  | none => ⟨s, [], false⟩
  | some f =>
    let s1 := (prePhase f s).1
    let req := (prePhase f s).2
    match outcome with
    | .networkReject => ⟨s1, [req], true⟩
    | .parseReject => ⟨s1, [req], true⟩
    | .ok data =>
      match renderRaw data s1 with
      | .error s2 => ⟨s2, [req], true⟩
      | .ok s2 => ⟨s2, [req], false⟩

/-- The host page's initial DOM state: empty status line, both sections
carrying the `hidden` class, empty list containers. -/
def initialDom : DomState :=
  { statusText := "", ingredientsHidden := true, recipesHidden := true,
    ingredientsListHTML := "", recipesListHTML := "" }

/-- Membership in a list puts the rendered element verbatim somewhere inside
the separator-free join of the rendered list. -/
theorem joinAll_map_mem_decomp {α : Type} (g : α → String) (l : List α) (x : α)
    (h : x ∈ l) : ∃ pre post, joinAll (l.map g) = pre ++ g x ++ post := by
  induction l with
  | nil => cases h
  | cons a t ih =>
    rcases List.mem_cons.mp h with h1 | h2
    · subst h1
      exact ⟨"", joinAll (t.map g), by simp [joinAll]⟩
    · obtain ⟨pre, post, hp⟩ := ih h2
      refine ⟨g a ++ pre, post, ?_⟩
      simp only [List.map_cons, joinAll, hp, String.append_assoc]

/-- C1: for every submission in which a file is selected, the handler hides
both sections before the request is issued, and issues exactly one POST
request to `/analyze` whose multipart body carries the file under the single
field name `image`, whatever the fetch outcome. -/
theorem submit_hides_then_sends_single_image_request
    (f : String) (s : DomState) (o : FetchOutcome) :
    (prePhase f s).1.ingredientsHidden = true ∧
    (prePhase f s).1.recipesHidden = true ∧
    (submitCycle (some f) o s).requests = [(prePhase f s).2] ∧
    (prePhase f s).2.method = "POST" ∧
    (prePhase f s).2.url = "/analyze" ∧
    (prePhase f s).2.body.parts = [("image", f)] := by
  refine ⟨rfl, rfl, ?_, rfl, rfl, rfl⟩
  cases o with
  | ok data =>
    simp only [submitCycle]
    cases h : renderRaw data (prePhase f s).1 <;> simp [h]
  | networkReject => rfl
  | parseReject => rfl

/-- C5: for every submission in which no file is selected, the handler is a
silent no-op: no request is sent, nothing throws, and the whole DOM state,
in particular the status text, is unchanged. -/
theorem no_file_selected_noop (o : FetchOutcome) (s : DomState) :
    submitCycle none o s = ⟨s, [], false⟩ := rfl

/-- C6: for every cycle that parses a well-formed response, the status
indicator ends cleared to the empty string, whether or not either sequence
was empty. -/
theorem status_cleared_after_render
    (f : String) (ing : List String) (rec : List Recipe) (s : DomState) :
    (submitCycle (some f) (.ok ⟨some ing, some rec⟩) s).dom.statusText = ""
    := by
  simp [submitCycle, renderRaw]

/-- C8: `renderRecipe` is deterministic: two applications to the same
recipe record yield character-for-character identical markup text. -/
theorem renderRecipe_deterministic (r₁ r₂ : Recipe) (h : r₁ = r₂) :
    (renderRecipe r₁).data = (renderRecipe r₂).data := by rw [h]

/-- Witness for C8 at a concrete recipe. -/
theorem renderRecipe_deterministic_witness :
    (renderRecipe ⟨"Pancakes", "Fluffy.", ["egg", "flour"], ["Mix", "Cook"]⟩).data
      = (renderRecipe ⟨"Pancakes", "Fluffy.", ["egg", "flour"], ["Mix", "Cook"]⟩).data :=
  renderRecipe_deterministic _ _ rfl

/-- C2: on a well-formed response, an empty `ingredients` sequence leaves the
ingredients section hidden and its container untouched; a non-empty sequence
reveals the section and replaces the container's markup with exactly one pill
badge per ingredient string, in input order, joined with no separator. -/
theorem ingredients_section_rendering
    (f : String) (ing : List String) (rec : List Recipe) (s : DomState) :
    (ing = [] →
      (submitCycle (some f) (.ok ⟨some ing, some rec⟩) s).dom.ingredientsHidden = true ∧
      (submitCycle (some f) (.ok ⟨some ing, some rec⟩) s).dom.ingredientsListHTML
        = s.ingredientsListHTML) ∧
    (ing ≠ [] →
      (submitCycle (some f) (.ok ⟨some ing, some rec⟩) s).dom.ingredientsHidden = false ∧
      (submitCycle (some f) (.ok ⟨some ing, some rec⟩) s).dom.ingredientsListHTML
        = joinAll (ing.map pill)) := by
  constructor
  · intro h
    subst h
    by_cases hr : rec.length ≠ 0 <;>
      simp [submitCycle, renderRaw, renderIngredients, renderRecipes,
        prePhase, hr]
  · intro h
    have hlen : ing.length ≠ 0 := by simpa using h
    by_cases hr : rec.length ≠ 0 <;>
      simp [submitCycle, renderRaw, renderIngredients, renderRecipes,
        prePhase, hlen, hr]

/-- Witness for C2 at the concrete response of the spec's scenario. -/
theorem ingredients_section_rendering_witness :
    (submitCycle (some "photo.jpg")
        (.ok ⟨some ["egg", "flour"], some []⟩) initialDom).dom.ingredientsHidden
      = false ∧
    (submitCycle (some "photo.jpg")
        (.ok ⟨some ["egg", "flour"], some []⟩) initialDom).dom.ingredientsListHTML
      = joinAll (["egg", "flour"].map pill) :=
  (ingredients_section_rendering "photo.jpg" ["egg", "flour"] [] initialDom).2
    (by decide)

/-- C3: on a well-formed response, an empty `recipes` sequence leaves the
recipes section hidden and its container untouched; a non-empty sequence
reveals the section and replaces the container's markup with one card per
record, each card the full template reproducing the record's title, short
description, used-ingredient items in order, and step items in order inside
an ordered list. -/
theorem recipes_section_rendering
    (f : String) (ing : List String) (rec : List Recipe) (s : DomState) :
    (rec = [] →
      (submitCycle (some f) (.ok ⟨some ing, some rec⟩) s).dom.recipesHidden = true ∧
      (submitCycle (some f) (.ok ⟨some ing, some rec⟩) s).dom.recipesListHTML
        = s.recipesListHTML) ∧
    (rec ≠ [] →
      (submitCycle (some f) (.ok ⟨some ing, some rec⟩) s).dom.recipesHidden = false ∧
      (submitCycle (some f) (.ok ⟨some ing, some rec⟩) s).dom.recipesListHTML
        = joinAll (rec.map renderRecipe)) ∧
    (∀ r : Recipe, renderRecipe r =
      "\n    <div class=\"recipe-card\">\n      <h3>" ++ r.title
        ++ "</h3>\n      <p>" ++ r.short_description
        ++ "</p>\n      <h4>Ingredients used</h4>\n      <ul>\n        "
        ++ joinAll (r.ingredients_used.map (fun i => "<li>" ++ i ++ "</li>"))
        ++ "\n      </ul>\n      <h4>Steps</h4>\n      <ol>\n        "
        ++ joinAll (r.steps.map (fun st => "<li>" ++ st ++ "</li>"))
        ++ "\n      </ol>\n    </div>\n  ") := by
  refine ⟨?_, ?_, fun r => rfl⟩
  · intro h
    subst h
    by_cases hi : ing.length ≠ 0 <;>
      simp [submitCycle, renderRaw, renderIngredients, renderRecipes,
        prePhase, hi]
  · intro h
    have hlen : rec.length ≠ 0 := by simpa using h
    by_cases hi : ing.length ≠ 0 <;>
      simp [submitCycle, renderRaw, renderIngredients, renderRecipes,
        prePhase, hlen, hi]

/-- Witness for C3 at the concrete response of the spec's scenario. -/
theorem recipes_section_rendering_witness :
    (submitCycle (some "photo.jpg")
        (.ok ⟨some [], some [⟨"Pancakes", "Fluffy.", ["egg", "flour"], ["Mix", "Cook"]⟩]⟩)
        initialDom).dom.recipesHidden = false ∧
    (submitCycle (some "photo.jpg")
        (.ok ⟨some [], some [⟨"Pancakes", "Fluffy.", ["egg", "flour"], ["Mix", "Cook"]⟩]⟩)
        initialDom).dom.recipesListHTML
      = joinAll ([(⟨"Pancakes", "Fluffy.", ["egg", "flour"], ["Mix", "Cook"]⟩ : Recipe)].map renderRecipe) :=
  ((recipes_section_rendering "photo.jpg" []
      [⟨"Pancakes", "Fluffy.", ["egg", "flour"], ["Mix", "Cook"]⟩] initialDom).2.1
    (by decide))

/-- C4: when the fetch promise rejects or the body fails to parse as JSON,
the rejection escapes the handler uncaught: the status line stays at
`"Analyzing…"`, both sections stay hidden, and neither list container is
written. -/
theorem uncaught_failure_leaves_progress_state
    (f : String) (s : DomState) (o : FetchOutcome)
    (h : o = .networkReject ∨ o = .parseReject) :
    (submitCycle (some f) o s).threw = true ∧
    (submitCycle (some f) o s).dom.statusText = "Analyzing…" ∧
    (submitCycle (some f) o s).dom.ingredientsHidden = true ∧
    (submitCycle (some f) o s).dom.recipesHidden = true ∧
    (submitCycle (some f) o s).dom.ingredientsListHTML = s.ingredientsListHTML ∧
    (submitCycle (some f) o s).dom.recipesListHTML = s.recipesListHTML := by
  rcases h with h | h <;> subst h <;>
    exact ⟨rfl, rfl, rfl, rfl, rfl, rfl⟩

/-- Witness for C4 at a concrete rejected request. -/
theorem uncaught_failure_witness :
    (submitCycle (some "photo.jpg") FetchOutcome.networkReject initialDom).threw
        = true ∧
    (submitCycle (some "photo.jpg") FetchOutcome.networkReject initialDom).dom.statusText
        = "Analyzing…" :=
  ⟨(uncaught_failure_leaves_progress_state "photo.jpg" initialDom _ (Or.inl rfl)).1,
   (uncaught_failure_leaves_progress_state "photo.jpg" initialDom _ (Or.inl rfl)).2.1⟩

/-- C7: every ingredient string of the response, markup included, appears
verbatim and unescaped inside its pill badge in the markup assigned to the
ingredients list container. -/
theorem ingredient_markup_inserted_verbatim
    (f : String) (ing : List String) (rec : List Recipe) (s : DomState)
    (i : String) (h : i ∈ ing) :
    ∃ pre post,
      (submitCycle (some f) (.ok ⟨some ing, some rec⟩) s).dom.ingredientsListHTML
        = pre ++ ("<span class=\"pill\">" ++ i ++ "</span>") ++ post := by
  have hlen : ing.length ≠ 0 := by
    simpa using List.ne_nil_of_mem h
  have hhtml :
      (submitCycle (some f) (.ok ⟨some ing, some rec⟩) s).dom.ingredientsListHTML
        = joinAll (ing.map pill) := by
    by_cases hr : rec.length ≠ 0 <;>
      simp [submitCycle, renderRaw, renderIngredients, renderRecipes,
        prePhase, hlen, hr]
  rw [hhtml]
  exact joinAll_map_mem_decomp pill ing i h

/-- Witness for C7 at a concrete ingredient string carrying markup. -/
theorem ingredient_markup_inserted_verbatim_witness :
    ∃ pre post,
      (submitCycle (some "photo.jpg")
          (.ok ⟨some ["<img src=x onerror=alert(1)>"], some []⟩)
          initialDom).dom.ingredientsListHTML
        = pre ++ ("<span class=\"pill\">" ++ "<img src=x onerror=alert(1)>"
            ++ "</span>") ++ post :=
  ingredient_markup_inserted_verbatim "photo.jpg"
    ["<img src=x onerror=alert(1)>"] [] initialDom
    "<img src=x onerror=alert(1)>" (List.mem_singleton.mpr rfl)

/-- C9: the empty branches perform no write: a cycle whose response has both
sequences empty only re-adds the `hidden` class and clears the status line,
leaving both list containers with whatever markup a previous cycle put
there. -/
theorem empty_response_preserves_stale_markup (f : String) (s : DomState) :
    renderIngredients [] s = s ∧
    renderRecipes [] s = s ∧
    (submitCycle (some f) (.ok ⟨some [], some []⟩) s).dom
      = { s with statusText := "", ingredientsHidden := true,
                 recipesHidden := true } := by
  refine ⟨rfl, rfl, ?_⟩
  simp [submitCycle, renderRaw, renderIngredients, renderRecipes, prePhase]

/-- C10: a parsed response with a non-empty `ingredients` array but no
`recipes` field renders the ingredients first and only then throws on
`recipes.length`: the cycle ends with ingredients revealed and populated,
the recipes section hidden and untouched, the status stuck at
`"Analyzing…"`, and the failure uncaught. -/
theorem missing_recipes_field_partial_render
    (f : String) (ing : List String) (s : DomState) (h : ing ≠ []) :
    (submitCycle (some f) (.ok ⟨some ing, none⟩) s).threw = true ∧
    (submitCycle (some f) (.ok ⟨some ing, none⟩) s).dom.ingredientsHidden = false ∧
    (submitCycle (some f) (.ok ⟨some ing, none⟩) s).dom.ingredientsListHTML
      = joinAll (ing.map pill) ∧
    (submitCycle (some f) (.ok ⟨some ing, none⟩) s).dom.recipesHidden = true ∧
    (submitCycle (some f) (.ok ⟨some ing, none⟩) s).dom.recipesListHTML
      = s.recipesListHTML ∧
    (submitCycle (some f) (.ok ⟨some ing, none⟩) s).dom.statusText
      = "Analyzing…" := by
  have hlen : ing.length ≠ 0 := by simpa using h
  simp [submitCycle, renderRaw, renderIngredients, prePhase, hlen]

/-- Witness for C10 at a concrete malformed response. -/
theorem missing_recipes_field_partial_render_witness :
    (submitCycle (some "photo.jpg") (.ok ⟨some ["egg"], none⟩) initialDom).threw
        = true ∧
    (submitCycle (some "photo.jpg") (.ok ⟨some ["egg"], none⟩) initialDom).dom.statusText
        = "Analyzing…" :=
  ⟨(missing_recipes_field_partial_render "photo.jpg" ["egg"] initialDom
      (by decide)).1,
   (missing_recipes_field_partial_render "photo.jpg" ["egg"] initialDom
      (by decide)).2.2.2.2.2⟩

end UploadRender
